import Mathlib

/-!
Shallow embedding of the core of the RED_TEAM dork-generator application:
the payload validator, the generation controller around the AI boundary,
the refinement handler, the bounded history ledger, and the manual-override
query composition. Definitions mirror the TypeScript source; theorems settle
the specification claims against them.
-/

namespace RedTeam

/-- The double-quote character, written by code point to keep string
literals readable. -/
def quoteChar : Char := Char.ofNat 34

/-- One character of the regex class used by the validator:
the Russian Cyrillic letters а-я, А-Я and ё, Ё. -/
def isCyrillic (c : Char) : Bool :=
  (0x410 ≤ c.toNat && c.toNat ≤ 0x42F) ||
  (0x430 ≤ c.toNat && c.toNat ≤ 0x44F) ||
  c.toNat == 0x401 || c.toNat == 0x451

/-- JavaScript regex whitespace class backslash-s: ASCII whitespace plus the
Unicode space separators, line separators and BOM. -/
def jsWhitespace (c : Char) : Bool :=
  c.toNat == 0x9 || c.toNat == 0xA || c.toNat == 0xB || c.toNat == 0xC ||
  c.toNat == 0xD || c.toNat == 0x20 || c.toNat == 0xA0 || c.toNat == 0x1680 ||
  (0x2000 ≤ c.toNat && c.toNat ≤ 0x200A) ||
  c.toNat == 0x2028 || c.toNat == 0x2029 || c.toNat == 0x202F ||
  c.toNat == 0x205F || c.toNat == 0x3000 || c.toNat == 0xFEFF

/-- The operator alternatives of the spacing regex, already with the colon:
ext, site, inurl, intitle. -/
def opTokens : List (List Char) :=
  ["ext:".toList, "site:".toList, "inurl:".toList, "intitle:".toList]

/-- Does the character list begin with one of the operator tokens followed
immediately by at least one whitespace character? -/
def startsWithOpSpace (l : List Char) : Bool :=
  opTokens.any (fun op =>
    decide (l.take op.length = op) &&
    match l.drop op.length with
    | c :: _ => jsWhitespace c
    | [] => false)

/-- Unanchored test of the spacing regex: some suffix of the list starts
with an operator token followed by whitespace. -/
def hasOpColonSpace : List Char → Bool
  | [] => false
  | c :: cs => startsWithOpSpace (c :: cs) || hasOpColonSpace cs

/-- Message pushed for the Cyrillic check. -/
def cyrMsg : String :=
  "CRITICAL: Cyrillic characters detected in Dork. Google Operators must be ASCII."

/-- Message pushed for the quote-balance check. -/
def quoteMsg : String :=
  "SYNTAX ERROR: Unbalanced quotes detected. Ensure all strings are closed."

/-- Message pushed for the operator-colon spacing check. -/
def spaceMsg : String :=
  "SYNTAX WARNING: Space detected after operator colon (e.g. \x27ext: pdf\x27). Remove space."

/-- The client-side payload validator: Cyrillic check, quote balance,
operator-colon spacing, in that order, all independent. -/
def validatePayload (payload : String) : List String :=
  (if payload.toList.any isCyrillic then [cyrMsg] else []) ++
  (if (payload.toList.countP (fun c => c = quoteChar)) % 2 ≠ 0 then [quoteMsg] else []) ++
  (if hasOpColonSpace payload.toList then [spaceMsg] else [])

/-- The manual-override fields (advanced mode). -/
structure ManualParams where
  site : String
  inurl : String
  intitle : String
  filetype : String
  textquery : String
deriving DecidableEq, Repr

/-- The cleared manual-override record, as set on AI success and at start. -/
def emptyParams : ManualParams := ⟨"", "", "", "", ""⟩

/-- The structured AI response as the runtime actually sees it: JSON.parse
performs no field validation, so every field may be absent. -/
structure PartialDork where
  dork : Option String
  explanation : Option String
  riskLevel : Option String
  suggestedOperators : Option (List String)
  validationAnalysis : Option String
  improvementReasoning : Option String
  refinedObjective : Option String
deriving DecidableEq, Repr

/-- A structurally complete response: every required schema field present. -/
def isComplete (d : PartialDork) : Bool :=
  d.dork.isSome && d.explanation.isSome && d.riskLevel.isSome &&
  d.suggestedOperators.isSome && d.validationAnalysis.isSome &&
  d.improvementReasoning.isSome && d.refinedObjective.isSome

/-- One entry of the history ledger. -/
structure HistoryItem where
  timestamp : Nat
  input : String
  response : PartialDork
deriving DecidableEq, Repr

/-- The ledger operation: prepend the new entry and keep the first 10. -/
def record (e : HistoryItem) (h : List HistoryItem) : List HistoryItem :=
  (e :: h).take 10

/-- The session state held by the App component. -/
structure SessionState where
  naturalInput : String
  dork : String
  analysis : Option PartialDork
  history : List HistoryItem
  isLoading : Bool
  error : Option String
  syntaxErrors : List String
  manualParams : ManualParams
deriving DecidableEq, Repr

/-- Outcome of the awaited AI boundary call plus the JSON parse of its text,
as distinguished by the controller code. -/
inductive AIOutcome where
  /-- The awaited call threw; the optional payload is the exception message. -/
  | throwErr (msg : Option String)
  /-- The call returned but the response text was empty or absent. -/
  | okNoText
  /-- The response text was present but JSON.parse threw with this message. -/
  | okBadJson (msg : String)
  /-- JSON.parse succeeded, yielding an unvalidated object. -/
  | okParsed (data : PartialDork)
deriving DecidableEq, Repr

/-- The error message built in the catch block: the fixed prefix, with the
exception message appended in brackets when one exists. -/
def uplinkMsg (m : Option String) : String :=
  match m with
  | some msg => "UPLINK ERROR: Unable to generate strategy." ++ " [" ++ msg ++ "]"
  | none => "UPLINK ERROR: Unable to generate strategy."

/-- The TypeError message raised when validatePayload dereferences an absent
dork field (payload.match on undefined). -/
def undefinedMatchMsg : String :=
  "Cannot read properties of undefined (reading \x27match\x27)"

/-- The falsiness test on inputToUse.trim: the trimmed string is empty
exactly when every character of the input is whitespace. -/
def isBlank (s : String) : Bool := s.toList.all jsWhitespace

/-- Resolution of overrideInput with the JavaScript or-else: a present but
empty override string is falsy and falls back to naturalInput. -/
def resolveInput (ov : Option String) (st : SessionState) : String :=
  match ov with
  | some s => if s = "" then st.naturalInput else s
  | none => st.naturalInput

/-- One complete run of generateWithAI, given whether the API key is
configured, the override input, the clock value and the boundary outcome.
Returns the final state and whether the AI boundary was invoked. -/
def generateWithAI (st : SessionState) (apiKey : Bool) (ov : Option String)
    (now : Nat) (ai : AIOutcome) : SessionState × Bool :=
  let inputToUse := resolveInput ov st
  if isBlank inputToUse then (st, false)
  else if !apiKey then
    ({ st with error := some "ABORTED: API Key not found." }, false)
  else
    let pending : SessionState :=
      { st with isLoading := true, error := none, syntaxErrors := [], analysis := none }
    match ai with
    | .throwErr m =>
      ({ pending with error := some (uplinkMsg m), isLoading := false }, true)
    | .okNoText =>
      ({ pending with isLoading := false }, true)
    | .okBadJson m =>
      ({ pending with error := some (uplinkMsg (some m)), isLoading := false }, true)
    | .okParsed data =>
      match data.dork with
      | none =>
        ({ pending with error := some (uplinkMsg (some undefinedMatchMsg)),
                        isLoading := false }, true)
      | some q =>
        ({ pending with
            syntaxErrors := validatePayload q,
            dork := q,
            analysis := some data,
            history := record ⟨now, inputToUse, data⟩ st.history,
            manualParams := emptyParams,
            isLoading := false }, true)

/-- handleApplyImprovement: when an analysis with a truthy refinedObjective
is present, set the objective to it and run one generation cycle with it.
Returns the final state and the number of generation cycles initiated. -/
def handleApplyImprovement (st : SessionState) (apiKey : Bool) (now : Nat)
    (ai : AIOutcome) : SessionState × Nat :=
  match st.analysis with
  | some a =>
    match a.refinedObjective with
    | some x =>
      if x = "" then (st, 0)
      else
        (((generateWithAI { st with naturalInput := x } apiKey (some x) now ai)).1, 1)
    | none => (st, 0)
  | none => (st, 0)

/-- The dork parts composed from truthy manual-override fields, in the
field order of the effect. -/
def composeParts (mp : ManualParams) : List String :=
  (if mp.site ≠ "" then ["site:" ++ mp.site] else []) ++
  (if mp.inurl ≠ "" then ["inurl:" ++ mp.inurl] else []) ++
  (if mp.intitle ≠ "" then
    ["intitle:" ++ String.mk [quoteChar] ++ mp.intitle ++ String.mk [quoteChar]]
   else []) ++
  (if mp.filetype ≠ "" then ["filetype:" ++ mp.filetype] else []) ++
  (if mp.textquery ≠ "" then
    [String.mk [quoteChar] ++ mp.textquery ++ String.mk [quoteChar]]
   else [])

/-- The sync effect: in manual mode (no analysis), when at least one part is
present, overwrite the dork with the joined parts; otherwise change nothing. -/
def manualSyncEffect (st : SessionState) : SessionState :=
  match st.analysis with
  | some _ => st
  | none =>
    let parts := composeParts st.manualParams
    if parts.length > 0 then { st with dork := String.intercalate " " parts } else st

/-- The five manual-override input names. -/
inductive ManualField where
  | site | inurl | intitle | filetype | textquery
deriving DecidableEq, Repr

/-- Functional update of one manual field by name. -/
def setField (mp : ManualParams) : ManualField → String → ManualParams
  | .site, v => { mp with site := v }
  | .inurl, v => { mp with inurl := v }
  | .intitle, v => { mp with intitle := v }
  | .filetype, v => { mp with filetype := v }
  | .textquery, v => { mp with textquery := v }

/-- handleManualChange followed by the sync effect it triggers: clear the
analysis, update the named field, then recompute the dork in manual mode. -/
def handleManualChange (st : SessionState) (f : ManualField) (v : String) :
    SessionState :=
  manualSyncEffect
    { st with analysis := none, manualParams := setField st.manualParams f v }

/-! ## Validator lemmas -/

theorem cyrMsg_ne_quoteMsg : cyrMsg ≠ quoteMsg := by decide

theorem cyrMsg_ne_spaceMsg : cyrMsg ≠ spaceMsg := by decide

theorem quoteMsg_ne_spaceMsg : quoteMsg ≠ spaceMsg := by decide

theorem mem_validatePayload_cyr (s : String) :
    cyrMsg ∈ validatePayload s ↔ s.toList.any isCyrillic = true := by
  unfold validatePayload
  split_ifs with h1 h2 h3 <;>
    simp_all [cyrMsg_ne_quoteMsg, cyrMsg_ne_spaceMsg]

theorem mem_validatePayload_quote (s : String) :
    quoteMsg ∈ validatePayload s ↔
      (s.toList.countP (fun c => c = quoteChar)) % 2 ≠ 0 := by
  unfold validatePayload
  split_ifs with h1 h2 h3 <;>
    simp_all [cyrMsg_ne_quoteMsg.symm, quoteMsg_ne_spaceMsg]

theorem mem_validatePayload_space (s : String) :
    spaceMsg ∈ validatePayload s ↔ hasOpColonSpace s.toList = true := by
  unfold validatePayload
  split_ifs with h1 h2 h3 <;>
    simp_all [cyrMsg_ne_spaceMsg.symm, quoteMsg_ne_spaceMsg.symm]

/-- C1: a query string yields the CRITICAL ASCII-violation issue exactly when
it contains at least one character of the Cyrillic letter range checked by
the validator. -/
theorem c1_cyrillic_critical (s : String) :
    cyrMsg ∈ validatePayload s ↔ ∃ c ∈ s.toList, isCyrillic c = true := by
  rw [mem_validatePayload_cyr, List.any_eq_true]

/-- C8: a query string yields the unbalanced-quotes SYNTAX-ERROR issue exactly
when its count of double-quote characters is odd. -/
theorem c8_quote_balance (s : String) :
    quoteMsg ∈ validatePayload s ↔
      (s.toList.countP (fun c => c = quoteChar)) % 2 = 1 := by
  rw [mem_validatePayload_quote]
  omega

/-- C2 counterexample: the claim says a spacing warning is emitted for every
recognized operator, filetype included, but the validator returns no issue at
all for a filetype token followed by a space. -/
theorem c2_counterexample : validatePayload "filetype: pdf" = [] := by decide

theorem startsWithOpSpace_of_op (op : List Char) (hop : op ∈ opTokens)
    (c : Char) (hc : jsWhitespace c = true) (post : List Char) :
    startsWithOpSpace (op ++ c :: post) = true := by
  unfold startsWithOpSpace
  rw [List.any_eq_true]
  refine ⟨op, hop, ?_⟩
  rw [List.take_left, List.drop_left]
  simp [hc]

theorem hasOpColonSpace_append (pre m : List Char)
    (hm : startsWithOpSpace m = true) : hasOpColonSpace (pre ++ m) = true := by
  induction pre with
  | nil =>
    cases m with
    | nil => exact absurd hm (by decide)
    | cons c cs => simp [hasOpColonSpace, hm]
  | cons a l ih => simp [hasOpColonSpace, ih]

/-- C2 amended: the validator emits the spacing warning whenever one of the
tokens it actually checks (ext, site, inurl, intitle, hence also intext and
the negated forms, which contain them) is followed by whitespace after its
colon, anywhere in the string; site with and without the space behave as the
claim's examples state; but filetype followed by a space is not flagged. -/
theorem c2_amended_spacing :
    (∀ (pre post op : List Char), op ∈ opTokens → ∀ c : Char,
      jsWhitespace c = true →
        spaceMsg ∈ validatePayload (String.mk (pre ++ op ++ c :: post))) ∧
    spaceMsg ∈ validatePayload "site: example.com" ∧
    validatePayload "site:example.com" = [] ∧
    spaceMsg ∈ validatePayload "intext: foo" ∧
    spaceMsg ∈ validatePayload "-site: x" ∧
    spaceMsg ∈ validatePayload "-inurl: x" ∧
    validatePayload "filetype: pdf" = [] := by
  refine ⟨?_, by decide, by decide, by decide, by decide, by decide, by decide⟩
  intro pre post op hop c hc
  rw [mem_validatePayload_space]
  have hs : (String.mk (pre ++ op ++ c :: post)).toList = pre ++ (op ++ c :: post) := by
    simp [String.toList]
  rw [hs]
  exact hasOpColonSpace_append pre (op ++ c :: post)
    (startsWithOpSpace_of_op op hop c hc post)

/-- Witness for the amended C2: instantiated at an inner occurrence of the
site token with a plain space. -/
theorem c2_amended_spacing_witness :
    spaceMsg ∈ validatePayload
      (String.mk ("x ".toList ++ "site:".toList ++ ' ' :: "y".toList)) :=
  c2_amended_spacing.1 "x ".toList "y".toList "site:".toList (by decide)
    ' ' (by decide)

/-! ## History ledger lemmas -/

theorem record_take (e : HistoryItem) (acc : List HistoryItem) :
    record e (acc.take 10) = (e :: acc).take 10 := by
  simp [record, List.take_succ_cons, List.take_take]

theorem foldl_record_aux (es : List HistoryItem) :
    ∀ acc : List HistoryItem,
      es.foldl (fun h e => record e h) (acc.take 10) = (es.reverse ++ acc).take 10 := by
  induction es with
  | nil => intro acc; simp
  | cons e es ih =>
    intro acc
    rw [List.foldl_cons, record_take, ih (e :: acc)]
    simp

theorem foldl_record (es : List HistoryItem) :
    es.foldl (fun h e => record e h) [] = es.reverse.take 10 := by
  simpa using foldl_record_aux es []

/-- C4: the ledger records by prepending and keeping the first ten entries,
so it never exceeds ten entries, never reorders the survivors, and after
eleven recordings holds exactly the ten most recent, newest first. -/
theorem c4_history_bound :
    (∀ (e : HistoryItem) (h : List HistoryItem), record e h = e :: h.take 9) ∧
    (∀ (e : HistoryItem) (h : List HistoryItem), (record e h).length ≤ 10) ∧
    (∀ es : List HistoryItem, es.length = 11 →
      es.foldl (fun h e => record e h) [] = (es.drop 1).reverse) := by
  refine ⟨fun e h => by simp [record, List.take_succ_cons],
          fun e h => by simp [record],
          fun es hlen => ?_⟩
  rw [foldl_record]
  cases es with
  | nil => simp at hlen
  | cons a t =>
    have ht : t.length = 10 := by simpa using hlen
    have hr : t.reverse.length = 10 := by simpa using ht
    simp [List.take_append_eq_append_take, hr, List.take_of_length_le, hr.le]

/-- A fixed anonymous ledger entry used to instantiate the ledger theorems. -/
def dummyItem (n : Nat) : HistoryItem :=
  ⟨n, "", ⟨none, none, none, none, none, none, none⟩⟩

/-- Witness for C4: eleven concrete recordings leave the last ten, newest
first. -/
theorem c4_history_bound_witness :
    ((List.range 11).map dummyItem).foldl (fun h e => record e h) [] =
      (((List.range 11).map dummyItem).drop 1).reverse :=
  c4_history_bound.2.2 ((List.range 11).map dummyItem) (by simp)

/-! ## Generation controller lemmas -/

/-- The initial session state of the component. -/
def initState : SessionState :=
  ⟨"", "", none, [], false, none, [], emptyParams⟩

/-- C6: with an empty or whitespace-only objective, generation returns before
touching any state and before any boundary call. -/
theorem c6_empty_objective (st : SessionState) (apiKey : Bool) (now : Nat)
    (ai : AIOutcome) (h : isBlank st.naturalInput = true) :
    generateWithAI st apiKey none now ai = (st, false) := by
  simp [generateWithAI, resolveInput, h]

/-- Witness for C6 at a whitespace-only objective. -/
theorem c6_empty_objective_witness :
    generateWithAI { initState with naturalInput := " \t " } true none 0 .okNoText =
      ({ initState with naturalInput := " \t " }, false) :=
  c6_empty_objective _ _ _ _ (by decide)

/-- C7: with a non-empty objective and no configured credential, generation
sets the specific abort message and changes nothing else, without any
boundary call. -/
theorem c7_missing_key (st : SessionState) (now : Nat) (ai : AIOutcome)
    (h : isBlank st.naturalInput = false) :
    generateWithAI st false none now ai =
      ({ st with error := some "ABORTED: API Key not found." }, false) := by
  simp [generateWithAI, resolveInput, h]

/-- Witness for C7 at a concrete non-empty objective. -/
theorem c7_missing_key_witness :
    generateWithAI { initState with naturalInput := "find env" } false none 0 .okNoText =
      ({ initState with naturalInput := "find env",
                        error := some "ABORTED: API Key not found." }, false) :=
  c7_missing_key _ _ _ (by decide)

/-- C5: on a structurally complete parsed result, the success path performs
exactly the specified effects: validate the query, store it and the result,
prepend one ledger entry, clear the manual overrides, and clear the error. -/
theorem c5_success_effects (st : SessionState) (now : Nat) (data : PartialDork)
    (q : String) (h1 : isBlank st.naturalInput = false) (h2 : data.dork = some q)
    (h3 : isComplete data = true) :
    generateWithAI st true none now (.okParsed data) =
      ({ st with isLoading := false, error := none,
                 syntaxErrors := validatePayload q, dork := q,
                 analysis := some data,
                 history := record ⟨now, st.naturalInput, data⟩ st.history,
                 manualParams := emptyParams }, true) := by
  simp [generateWithAI, resolveInput, h1, h2]

/-- A complete parsed result used to instantiate the success theorems. -/
def fullData : PartialDork :=
  ⟨some "site:.edu filetype:env", some "expl", some "HIGH",
   some ["intitle:index.of", "inurl:config", "-inurl:example"],
   some "ok", some "deepen", some "deeper objective"⟩

/-- A session state with a concrete pending objective. -/
def cexState : SessionState := { initState with naturalInput := "find env" }

/-- Witness for C5 at a concrete state and complete result. -/
theorem c5_success_effects_witness :
    generateWithAI cexState true none 7 (.okParsed fullData) =
      ({ cexState with isLoading := false, error := none,
                       syntaxErrors := validatePayload "site:.edu filetype:env",
                       dork := "site:.edu filetype:env",
                       analysis := some fullData,
                       history := record ⟨7, cexState.naturalInput, fullData⟩ cexState.history,
                       manualParams := emptyParams }, true) :=
  c5_success_effects cexState 7 fullData "site:.edu filetype:env"
    (by decide) (by decide) (by decide)

/-- A parsed result that has the dork field but omits every other required
field of the schema. -/
def cexData : PartialDork :=
  ⟨some "site:example.com", none, none, none, none, none, none⟩

/-- C3 counterexample: a parsed response omitting every required field except
dork is accepted: no error is set, the incomplete result is stored, and a
ledger entry is appended. -/
theorem c3_counterexample :
    isComplete cexData = false ∧
    (generateWithAI cexState true none 0 (.okParsed cexData)).1.error = none ∧
    (generateWithAI cexState true none 0 (.okParsed cexData)).1.analysis = some cexData ∧
    (generateWithAI cexState true none 0 (.okParsed cexData)).1.history =
      [⟨0, "find env", cexData⟩] := by decide

/-- C3 amended: unparseable response text, or a parsed response with no dork
field (which makes the validator dereference undefined), ends in the error
state with no result stored and no ledger change; but a parsed response that
has a dork field is accepted as a success regardless of the other required
fields. -/
theorem c3_amended_schema (st : SessionState) (now : Nat)
    (h : isBlank st.naturalInput = false) :
    (∀ m : String,
      (generateWithAI st true none now (.okBadJson m)).1.error ≠ none ∧
      (generateWithAI st true none now (.okBadJson m)).1.analysis = none ∧
      (generateWithAI st true none now (.okBadJson m)).1.history = st.history) ∧
    (∀ data : PartialDork, data.dork = none →
      (generateWithAI st true none now (.okParsed data)).1.error ≠ none ∧
      (generateWithAI st true none now (.okParsed data)).1.analysis = none ∧
      (generateWithAI st true none now (.okParsed data)).1.history = st.history) ∧
    (∀ (data : PartialDork) (q : String), data.dork = some q →
      (generateWithAI st true none now (.okParsed data)).1.error = none ∧
      (generateWithAI st true none now (.okParsed data)).1.analysis = some data ∧
      (generateWithAI st true none now (.okParsed data)).1.history =
        record ⟨now, st.naturalInput, data⟩ st.history) := by
  refine ⟨fun m => ?_, fun data hd => ?_, fun data q hd => ?_⟩
  · simp [generateWithAI, resolveInput, h]
  · simp [generateWithAI, resolveInput, h, hd]
  · simp [generateWithAI, resolveInput, h, hd]

/-- Witness for the amended C3 at a concrete unparseable response. -/
theorem c3_amended_schema_witness :
    (generateWithAI cexState true none 0 (.okBadJson "bad")).1.error ≠ none ∧
    (generateWithAI cexState true none 0 (.okBadJson "bad")).1.history =
      cexState.history :=
  ⟨((c3_amended_schema cexState 0 (by decide)).1 "bad").1,
   ((c3_amended_schema cexState 0 (by decide)).1 "bad").2.2⟩

/-! ## Refinement loop and manual mode -/

theorem generateWithAI_naturalInput (st : SessionState) (k : Bool)
    (ov : Option String) (now : Nat) (ai : AIOutcome) :
    (generateWithAI st k ov now ai).1.naturalInput = st.naturalInput := by
  cases ai <;> unfold generateWithAI <;> dsimp only <;>
    (repeat' split) <;> rfl

/-- C9: with an analysis whose refinedObjective is a non-empty X, applying
the improvement sets the objective to X, runs exactly one generation cycle,
passes X as that cycle's override, and that cycle resolves X as its input. -/
theorem c9_refinement (st : SessionState) (a : PartialDork) (x : String)
    (apiKey : Bool) (now : Nat) (ai : AIOutcome)
    (h1 : st.analysis = some a) (h2 : a.refinedObjective = some x)
    (h3 : x ≠ "") :
    handleApplyImprovement st apiKey now ai =
      ((generateWithAI { st with naturalInput := x } apiKey (some x) now ai).1, 1) ∧
    resolveInput (some x) { st with naturalInput := x } = x ∧
    (handleApplyImprovement st apiKey now ai).1.naturalInput = x := by
  have hmain : handleApplyImprovement st apiKey now ai =
      ((generateWithAI { st with naturalInput := x } apiKey (some x) now ai).1, 1) := by
    simp [handleApplyImprovement, h1, h2, h3]
  refine ⟨hmain, by simp [resolveInput, h3], ?_⟩
  rw [hmain]
  simp [generateWithAI_naturalInput]

/-- A state holding a completed analysis with a non-empty refinedObjective. -/
def refState : SessionState :=
  { initState with naturalInput := "orig", analysis := some fullData }

/-- Witness for C9 at a concrete completed analysis. -/
theorem c9_refinement_witness :
    handleApplyImprovement refState true 3 .okNoText =
      ((generateWithAI { refState with naturalInput := "deeper objective" } true
          (some "deeper objective") 3 .okNoText).1, 1) ∧
    resolveInput (some "deeper objective")
      { refState with naturalInput := "deeper objective" } = "deeper objective" ∧
    (handleApplyImprovement refState true 3 .okNoText).1.naturalInput =
      "deeper objective" :=
  c9_refinement refState fullData "deeper objective" true 3 .okNoText
    rfl rfl (by decide)

/-- C10: with no analysis and every manual field empty the sync effect is the
identity, so clearing the last non-empty manual field leaves the displayed
dork at its previous composed value (and the session in manual mode). -/
theorem c10_manual_frame :
    (∀ st : SessionState, st.analysis = none → st.manualParams = emptyParams →
      manualSyncEffect st = st) ∧
    (∀ (st : SessionState) (f : ManualField),
      setField st.manualParams f "" = emptyParams →
      (handleManualChange st f "").dork = st.dork ∧
      (handleManualChange st f "").analysis = none) := by
  constructor
  · intro st h1 h2
    simp [manualSyncEffect, h1, h2, composeParts, emptyParams]
  · intro st f h
    simp [handleManualChange, manualSyncEffect, h, composeParts, emptyParams]

/-- A manual-mode state whose only non-empty manual field is site, with the
dork composed from it. -/
def manualState : SessionState :=
  { initState with dork := "site:a.com",
                   manualParams := { emptyParams with site := "a.com" } }

/-- Witness for C10: clearing the site field keeps the composed dork. -/
theorem c10_manual_frame_witness :
    (handleManualChange manualState .site "").dork = manualState.dork ∧
    (handleManualChange manualState .site "").analysis = none :=
  c10_manual_frame.2 manualState .site (by decide)

end RedTeam
